import Mathlib

/-
Verification of the chaos-augmented load-testing tool
(src/load-testing-chaos/chaos_load_tester.py) against its specification.

The embedding models:
- the aggregate outcome statistics read by `generate_report`,
- the pure report computation `generate_report` (source lines 52-83),
- the chaos-injection loop `inject_chaos` (source lines 30-50) as a trace of
  control-plane calls driven by per-tick environments (random draws and
  control-plane responses),
- the outcome recorder contract (an external collaborator, modelled from the
  spec) and the virtual user's wait configuration (source lines 19-20).

Counters are natural numbers; latencies, probabilities and percentages are
rationals (the Python code computes in floating point; all claims here are
about the exact arithmetic of the formulas).
-/

/-- Aggregate request statistics as read by `generate_report` from
`env.stats.total` (source lines 53-55): number of requests, number of
failures, and the cumulative response time backing `avg_response_time`. -/
structure TotalStats where
  num_requests : ℕ
  num_failures : ℕ
  total_response_time : ℚ
deriving DecidableEq

/-- The `error_budget_consumed_percent` field of a report: either a numeric
percentage or the string sentinel returned on the zero-traffic branch
(source line 64 returns the string `"N/A (no data)"`). -/
inductive ErrorBudget where
  | percent (q : ℚ)
  | na (msg : String)
deriving DecidableEq

/-- The report dictionary built by `generate_report` (source lines 59-65 and
77-83). -/
structure Report where
  total_requests : ℕ
  failures : ℕ
  availability_percent : ℚ
  average_latency_ms : ℚ
  error_budget_consumed_percent : ErrorBudget
deriving DecidableEq

/-- Modelled from the spec: `stats.total.avg_response_time` (source line 72)
is provided by the locust statistics collaborator, whose code is not under
src/; the spec defines the average latency as
`cumulative_latency / total_requests` (zero when there are no requests). -/
def avg_response_time (s : TotalStats) : ℚ :=
  if s.num_requests = 0 then 0 else s.total_response_time / (s.num_requests : ℚ)

/-- `generate_report` (source lines 52-83): the zero-request branch returns
all-zero metrics with the string sentinel; otherwise availability, error
rate, allowed error rate, error-budget consumption (guarded by
`allowed_error_rate > 0 and error_rate > 0`) and average latency are
computed as on lines 67-72. -/
def generate_report (stats : TotalStats) (slo : ℚ) : Report :=
  let total_requests := stats.num_requests
  let failures := stats.num_failures
  if total_requests = 0 then
    { total_requests := 0, failures := 0, availability_percent := 0,
      average_latency_ms := 0,
      error_budget_consumed_percent := ErrorBudget.na "N/A (no data)" }
  else
    let availability : ℚ := (1 - ((failures : ℚ) / (total_requests : ℚ))) * 100
    let error_rate : ℚ := 1 - availability / 100
    let allowed_error_rate : ℚ := 1 - slo
    let error_budget_consumed : ℚ :=
      if 0 < allowed_error_rate ∧ 0 < error_rate then
        (error_rate / allowed_error_rate) * 100
      else 0
    let avg_latency : ℚ := if 0 < total_requests then avg_response_time stats else 0
    { total_requests := total_requests, failures := failures,
      availability_percent := availability,
      average_latency_ms := avg_latency,
      error_budget_consumed_percent := ErrorBudget.percent error_budget_consumed }

/-- Evaluation of `generate_report` on the positive-traffic branch
(source lines 67-83). -/
theorem generate_report_pos (stats : TotalStats) (slo : ℚ)
    (h : stats.num_requests ≠ 0) :
    generate_report stats slo =
      { total_requests := stats.num_requests, failures := stats.num_failures,
        availability_percent :=
          (1 - ((stats.num_failures : ℚ) / (stats.num_requests : ℚ))) * 100,
        average_latency_ms := stats.total_response_time / (stats.num_requests : ℚ),
        error_budget_consumed_percent := ErrorBudget.percent
          (if 0 < 1 - slo ∧
              0 < 1 - ((1 - ((stats.num_failures : ℚ) / (stats.num_requests : ℚ))) * 100) / 100
           then ((1 - ((1 - ((stats.num_failures : ℚ) / (stats.num_requests : ℚ))) * 100) / 100)
                  / (1 - slo)) * 100
           else 0) } := by
  simp [generate_report, avg_response_time, h, Nat.pos_of_ne_zero h]

/-- C1: for every summary with positive total requests and every slo, the
report's availability is `(1 - failures/total) * 100`, its average latency is
`cumulative_latency / total_requests`, and its error-budget consumption is
`((1 - availability/100) / (1 - slo)) * 100` when `1 - slo > 0` and the error
rate is positive, `0` when the error rate is zero, and `0` when `slo ≥ 1`;
on the summary {total 100, failed 1, lat 5000} with slo 0.99 this yields
availability 99, average latency 50 and error-budget consumption 100. -/
theorem C1_report_formulas (stats : TotalStats) (slo : ℚ)
    (h : 0 < stats.num_requests) :
    (generate_report stats slo).availability_percent
        = (1 - ((stats.num_failures : ℚ) / (stats.num_requests : ℚ))) * 100 ∧
    (generate_report stats slo).average_latency_ms
        = stats.total_response_time / (stats.num_requests : ℚ) ∧
    (0 < 1 - slo → 0 < 1 - (generate_report stats slo).availability_percent / 100 →
      (generate_report stats slo).error_budget_consumed_percent
        = ErrorBudget.percent
            (((1 - (generate_report stats slo).availability_percent / 100) / (1 - slo)) * 100)) ∧
    (1 - (generate_report stats slo).availability_percent / 100 = 0 →
      (generate_report stats slo).error_budget_consumed_percent = ErrorBudget.percent 0) ∧
    (1 ≤ slo →
      (generate_report stats slo).error_budget_consumed_percent = ErrorBudget.percent 0) ∧
    generate_report ⟨100, 1, 5000⟩ (99/100)
      = { total_requests := 100, failures := 1, availability_percent := 99,
          average_latency_ms := 50,
          error_budget_consumed_percent := ErrorBudget.percent 100 } := by
  have hne : stats.num_requests ≠ 0 := h.ne'
  rw [generate_report_pos stats slo hne]
  refine ⟨rfl, rfl, ?_, ?_, ?_, ?_⟩
  · intro hslo her
    rw [if_pos ⟨hslo, her⟩]
  · intro her
    rw [if_neg]
    rintro ⟨-, h2⟩
    rw [her] at h2
    exact lt_irrefl 0 h2
  · intro hslo
    rw [if_neg]
    rintro ⟨h1, -⟩
    have hle : (1:ℚ) - slo ≤ 0 := by linarith
    exact absurd h1 (not_lt.mpr hle)
  · rw [generate_report_pos ⟨100, 1, 5000⟩ (99/100) (by norm_num)]
    norm_num

/-- Concrete instantiation of C1 at the summary {total 100, failed 1,
lat 5000} and slo 99/100. -/
theorem C1_report_formulas_witness :
    (generate_report ⟨100, 1, 5000⟩ (99/100)).average_latency_ms
      = (5000 : ℚ) / ((100 : ℕ) : ℚ) :=
  (C1_report_formulas ⟨100, 1, 5000⟩ (99/100) (by decide)).2.1

/-- C2: for every slo, a summary with zero total requests produces the
all-zero report whose error-budget field is the string sentinel, which is
distinct from every numeric value (in particular from the number 0). -/
theorem C2_zero_requests (failures : ℕ) (lat : ℚ) (slo : ℚ) :
    generate_report ⟨0, failures, lat⟩ slo
      = { total_requests := 0, failures := 0, availability_percent := 0,
          average_latency_ms := 0,
          error_budget_consumed_percent := ErrorBudget.na "N/A (no data)" } ∧
    ∀ q : ℚ, (generate_report ⟨0, failures, lat⟩ slo).error_budget_consumed_percent
        ≠ ErrorBudget.percent q := by
  constructor
  · simp [generate_report]
  · intro q hq
    simp [generate_report] at hq

/-- A call issued by `inject_chaos` to the cluster control plane:
`v1.list_namespaced_pod(namespace)` (source line 41) or
`v1.delete_namespaced_pod(name, namespace)` (source line 44). -/
inductive K8sCall where
  | listPods (ns : String)
  | deletePod (podName : String) (ns : String)
deriving DecidableEq

/-- Whether a control-plane call is a delete. -/
def K8sCall.isDelete : K8sCall → Bool
  | K8sCall.deletePod _ _ => true
  | K8sCall.listPods _ => false

/-- The nondeterministic inputs of one iteration of the `while True` loop of
`inject_chaos` (source lines 38-50): the draw of `random.random()` (a value
in [0,1)), the control-plane response to the list call (a pod-name list, or
an ApiException message), the index drawn by `random.choice`, and the
control-plane response to the delete call (also possibly an ApiException,
caught on line 48). -/
structure TickEnv where
  r : ℚ
  listResult : Except String (List String)
  choiceIx : ℕ
  deleteResult : Except String Unit

/-- Control-plane calls issued by one iteration of the loop body of
`inject_chaos` (source lines 39-49): if `r < probability`, the pod list is
requested; on a non-empty list one pod chosen by `random.choice` is deleted;
on an empty list only a warning is logged; an ApiException from listing or
deleting is caught on line 48 and only logged, so a failed list call issues
no delete and a failed delete call is still one issued delete call. -/
def chaosTick (ns : String) (probability : ℚ) (env : TickEnv) : List K8sCall :=
  if env.r < probability then
    match env.listResult with
    | Except.error _ => [K8sCall.listPods ns]
    | Except.ok pods =>
      if h : pods = [] then [K8sCall.listPods ns]
      else
        [K8sCall.listPods ns,
         K8sCall.deletePod
           (pods.get ⟨env.choiceIx % pods.length,
             Nat.mod_lt _ (List.length_pos.mpr h)⟩) ns]
  else []

/-- The trace of control-plane calls of a run of `inject_chaos`
(source lines 30-50) across a finite window of loop iterations: if
`config.load_kube_config()` / client construction fails, the function
returns before the loop (lines 31-36) and issues no call; otherwise each
iteration of `while True` contributes its tick's calls. -/
def inject_chaos_trace (ns : String) (probability : ℚ)
    (setup : Except String Unit) (envs : List TickEnv) : List K8sCall :=
  match setup with
  | Except.error _ => []
  | Except.ok _ => (envs.map (chaosTick ns probability)).flatten

/-- Calls issued by `inject_chaos` at loop iteration `i` (0-based). The loop
condition on source line 38 is the constant `True` and the function signature
on line 30 takes no stop signal, so iteration `i` executes for every `i` and
its calls depend only on that iteration's environment. -/
def inject_chaos_callsAtTick (ns : String) (probability : ℚ)
    (envs : ℕ → TickEnv) (i : ℕ) : List K8sCall :=
  chaosTick ns probability (envs i)

/-- A tick environment in which the random draw is 0, the list call returns
the single pod "pod-a", and both control-plane calls succeed. -/
def alwaysFireEnv : TickEnv :=
  { r := 0, listResult := Except.ok ["pod-a"], choiceIx := 0,
    deleteResult := Except.ok () }

/-- The command-line arguments consumed by `main` (source lines 112-121). -/
structure Args where
  users : ℕ
  duration : ℕ
  ns : String
  chaos_prob : ℚ
  slo : ℚ

/-- The guard on source line 93: `main` starts the chaos thread only when
`args.chaos_prob > 0`. -/
def main_starts_chaos (args : Args) : Bool := decide (0 < args.chaos_prob)

/-- The report computed by `main` on source line 104:
`generate_report(env, args.slo)`, a function of the accumulated statistics
and the slo only. -/
def main_report (args : Args) (stats : TotalStats) : Report :=
  generate_report stats args.slo

/-- A tick at which the list call fails with an ApiException. -/
def failListEnv : TickEnv :=
  { r := 0, listResult := Except.error "boom", choiceIx := 0,
    deleteResult := Except.ok () }

/-- A tick whose probability check does not fire issues no call
(source line 39). -/
theorem chaosTick_not_fired (ns : String) (p : ℚ) (env : TickEnv)
    (h : ¬ env.r < p) : chaosTick ns p env = [] := by
  unfold chaosTick
  rw [if_neg h]

/-- One loop iteration of `inject_chaos` contributes its calls and the loop
then proceeds to the following iteration (the `except ApiException` handler
on source lines 48-49 is inside the `while` body, so a failing tick does not
end the loop). -/
theorem inject_chaos_trace_cons (ns : String) (p : ℚ) (e : TickEnv)
    (rest : List TickEnv) :
    inject_chaos_trace ns p (Except.ok ()) (e :: rest)
      = chaosTick ns p e ++ inject_chaos_trace ns p (Except.ok ()) rest := by
  simp [inject_chaos_trace]

/-- A tick whose probability check fires and whose list call returns a
non-empty pod list issues the list call and one delete of the pod selected
by `random.choice` (source lines 41-45). -/
theorem chaosTick_fired_nonempty (ns : String) (p : ℚ) (env : TickEnv)
    (pods : List String) (hr : env.r < p) (hl : env.listResult = Except.ok pods)
    (hne : pods ≠ []) :
    chaosTick ns p env =
      [K8sCall.listPods ns,
       K8sCall.deletePod
         (pods.get ⟨env.choiceIx % pods.length,
           Nat.mod_lt _ (List.length_pos.mpr hne)⟩) ns] := by
  unfold chaosTick
  rw [if_pos hr, hl]
  exact dif_neg hne

/-- C3, counterexample: `inject_chaos` (source line 30) takes no stop signal
and its loop condition (source line 38) is the constant `True`, so with the
stop signal raised at tick 0 of an execution in which every random draw is 0,
the probability is 1 and one pod is always listed, there is no grace bound
after which list and delete calls cease: for every bound, a later tick still
issues calls. This refutes the claim that no list or delete call happens
after the stop signal beyond a bounded grace window. -/
theorem C3_stop_signal_counterexample :
    ¬ ∃ grace : ℕ, ∀ i : ℕ, grace < i →
        inject_chaos_callsAtTick "default" 1 (fun _ => alwaysFireEnv) i = [] := by
  rintro ⟨grace, hg⟩
  have h := hg (grace + 1) (Nat.lt_succ_self grace)
  norm_num [inject_chaos_callsAtTick, chaosTick, alwaysFireEnv] at h
  exact List.cons_ne_nil _ _ h

/-- C3, amended: the chaos loop never observes a stop signal — at every tick
index `i`, in particular at every tick at or after any purported stop tick,
a tick whose draw fires (probability 1) against a non-empty pod list still
issues control-plane calls; the loop ends only when the daemon thread dies
with the process. -/
theorem C3_loop_ignores_stop (ns : String) (envs : ℕ → TickEnv)
    (stopTick i : ℕ) (hstop : stopTick ≤ i) (pods : List String)
    (hr : (envs i).r < 1) (hl : (envs i).listResult = Except.ok pods)
    (hne : pods ≠ []) :
    inject_chaos_callsAtTick ns 1 envs i ≠ [] := by
  unfold inject_chaos_callsAtTick
  rw [chaosTick_fired_nonempty ns 1 (envs i) pods hr hl hne]
  simp

/-- Concrete instantiation of C3's amended statement: with the stop signal
at tick 0, tick 3 still issues calls. -/
theorem C3_loop_ignores_stop_witness :
    inject_chaos_callsAtTick "default" 1 (fun _ => alwaysFireEnv) 3 ≠ [] :=
  C3_loop_ignores_stop "default" (fun _ => alwaysFireEnv) 0 3 (by norm_num)
    ["pod-a"] (by norm_num [alwaysFireEnv]) rfl (by simp)

/-- C5: at every tick of the chaos loop with probability 1 whose list call
returns a non-empty pod list, exactly one delete call is issued, and the
deleted pod is a member of the list returned by that tick's list call. -/
theorem C5_prob_one_deletes_listed_pod (ns : String) (env : TickEnv)
    (pods : List String) (hr : env.r < 1)
    (hl : env.listResult = Except.ok pods) (hne : pods ≠ []) :
    (chaosTick ns 1 env).countP K8sCall.isDelete = 1 ∧
    ∃ podName, podName ∈ pods ∧
      chaosTick ns 1 env = [K8sCall.listPods ns, K8sCall.deletePod podName ns] := by
  have heval := chaosTick_fired_nonempty ns 1 env pods hr hl hne
  refine ⟨?_, ?_⟩
  · rw [heval]
    simp [List.countP_cons, K8sCall.isDelete]
  · exact ⟨_, List.get_mem pods _ _, heval⟩

/-- Concrete instantiation of C5: one tick with draw 0 against the pod list
["pod-a"] issues exactly one delete call. -/
theorem C5_prob_one_deletes_listed_pod_witness :
    (chaosTick "default" 1 alwaysFireEnv).countP K8sCall.isDelete = 1 :=
  (C5_prob_one_deletes_listed_pod "default" alwaysFireEnv ["pod-a"]
    (by norm_num [alwaysFireEnv]) rfl (by simp)).1

/-- C6: with chaos probability 0, `main` does not even start the chaos
thread (source line 93); moreover a run of the chaos loop with probability 0
issues no control-plane call over any number of ticks (every draw of
`random.random()` is ≥ 0, so `r < 0` never fires); and the report is
computed by the same `generate_report` on the accumulated statistics and the
slo alone. -/
theorem C6_prob_zero_no_calls (args : Args) (hprob : args.chaos_prob = 0)
    (setup : Except String Unit) (envs : List TickEnv)
    (hr : ∀ e ∈ envs, 0 ≤ e.r) :
    main_starts_chaos args = false ∧
    inject_chaos_trace args.ns 0 setup envs = [] ∧
    ∀ stats : TotalStats, main_report args stats = generate_report stats args.slo := by
  refine ⟨?_, ?_, fun _ => rfl⟩
  · simp [main_starts_chaos, hprob]
  · cases setup with
    | error e => rfl
    | ok u =>
      induction envs with
      | nil => rfl
      | cons e rest ih =>
        cases u
        rw [inject_chaos_trace_cons,
          chaosTick_not_fired args.ns 0 e (not_lt.mpr (hr e (List.mem_cons_self e rest))),
          ih (fun x hx => hr x (List.mem_cons_of_mem e hx))]
        rfl

/-- Concrete instantiation of C6 at chaos probability 0 with one tick. -/
theorem C6_prob_zero_no_calls_witness :
    main_starts_chaos ⟨1, 5, "default", 0, 999/1000⟩ = false :=
  (C6_prob_zero_no_calls ⟨1, 5, "default", 0, 999/1000⟩ rfl (Except.ok ())
    [alwaysFireEnv]
    (by intro e he; rw [List.mem_singleton] at he; subst he; norm_num [alwaysFireEnv])).1

/-- C7: control-plane failures are absorbed by `inject_chaos`: a failed
cluster-client setup makes it return before the loop, issuing no call
(source lines 31-36), while `main`'s report is a function of the load
statistics and slo alone, unaffected by the injector; a tick whose list call
raises an ApiException issues no delete call (the handler on lines 48-49
logs and swallows it); and after any tick — including a failing one — the
loop proceeds to the next tick. -/
theorem C7_control_plane_failures_absorbed (ns : String) (p : ℚ) (msg : String)
    (e : TickEnv) (rest : List TickEnv) (envs : List TickEnv)
    (hfail : e.listResult = Except.error msg) :
    (∀ err : String, inject_chaos_trace ns p (Except.error err) envs = []) ∧
    (chaosTick ns p e).countP K8sCall.isDelete = 0 ∧
    inject_chaos_trace ns p (Except.ok ()) (e :: rest)
      = chaosTick ns p e ++ inject_chaos_trace ns p (Except.ok ()) rest ∧
    (∀ args stats, main_report args stats = generate_report stats args.slo) := by
  refine ⟨fun _ => rfl, ?_, inject_chaos_trace_cons ns p e rest, fun _ _ => rfl⟩
  by_cases hr : e.r < p
  · unfold chaosTick
    rw [if_pos hr, hfail]
    simp [K8sCall.isDelete]
  · rw [chaosTick_not_fired ns p e hr]
    rfl

/-- Concrete instantiation of C7: a run whose cluster-client setup fails
issues no control-plane call. -/
theorem C7_control_plane_failures_absorbed_witness :
    inject_chaos_trace "default" 1 (Except.error "cfg") [alwaysFireEnv] = [] :=
  (C7_control_plane_failures_absorbed "default" 1 "boom" failListEnv
    [alwaysFireEnv] [alwaysFireEnv] rfl).1 "cfg"

/-- One request outcome produced by a virtual user: whether the request
succeeded, and its observed latency. -/
structure RequestOutcome where
  succeeded : Bool
  latency : ℚ

/-- The shared outcome summary accumulated over a run. -/
structure OutcomeSummary where
  total_requests : ℕ
  failed_requests : ℕ
  cumulative_latency : ℚ
deriving DecidableEq

/-- Modelled from the spec: the Outcome Recorder's `record` operation. The
recorder backing `env.stats` is the locust statistics collaborator, whose
code is not under src/; per the spec it atomically increments
total_requests, increments failed_requests when the outcome did not
succeed, and adds the outcome's latency to cumulative_latency, and is
linearizable, so any concurrent interleaving of calls is equivalent to some
sequence of these atomic updates. -/
def record (s : OutcomeSummary) (o : RequestOutcome) : OutcomeSummary :=
  { total_requests := s.total_requests + 1,
    failed_requests := s.failed_requests + (if o.succeeded then 0 else 1),
    cumulative_latency := s.cumulative_latency + o.latency }

/-- The summary after a sequence of `record` calls. -/
def recordAll (s : OutcomeSummary) (os : List RequestOutcome) : OutcomeSummary :=
  os.foldl record s

/-- The empty summary created at test start. -/
def emptySummary : OutcomeSummary := ⟨0, 0, 0⟩

/-- Total requests after a sequence of `record` calls. -/
theorem recordAll_total (os : List RequestOutcome) (s : OutcomeSummary) :
    (recordAll s os).total_requests = s.total_requests + os.length := by
  induction os generalizing s with
  | nil => simp [recordAll]
  | cons o rest ih =>
    show (recordAll (record s o) rest).total_requests = _
    rw [ih (record s o)]
    simp [record]
    omega

/-- Failed requests after a sequence of `record` calls. -/
theorem recordAll_failed (os : List RequestOutcome) (s : OutcomeSummary) :
    (recordAll s os).failed_requests
      = s.failed_requests + os.countP (fun o => !o.succeeded) := by
  induction os generalizing s with
  | nil => simp [recordAll]
  | cons o rest ih =>
    show (recordAll (record s o) rest).failed_requests = _
    rw [ih (record s o)]
    simp [record, List.countP_cons]
    cases h : o.succeeded <;> simp [h] <;> omega

/-- C4: for every sequence of `record` calls starting from the empty
summary — any concurrent interleaving being some such sequence — the state
after the first `n` calls satisfies `failed_requests ≤ total_requests`, both
counters are non-decreasing from each call to the next, and the final
snapshot's `total_requests` equals the exact number of calls made. -/
theorem C4_recorder_invariants (os : List RequestOutcome) :
    (∀ n : ℕ, (recordAll emptySummary (os.take n)).failed_requests
        ≤ (recordAll emptySummary (os.take n)).total_requests) ∧
    (∀ n : ℕ, (recordAll emptySummary (os.take n)).total_requests
          ≤ (recordAll emptySummary (os.take (n + 1))).total_requests ∧
        (recordAll emptySummary (os.take n)).failed_requests
          ≤ (recordAll emptySummary (os.take (n + 1))).failed_requests) ∧
    (recordAll emptySummary os).total_requests = os.length := by
  refine ⟨?_, ?_, ?_⟩
  · intro n
    rw [recordAll_total, recordAll_failed]
    have hc : (os.take n).countP (fun o => !o.succeeded) ≤ (os.take n).length :=
      List.countP_le_length _
    have hlen := List.length_take n os
    simp [emptySummary]
    omega
  · intro n
    constructor
    · rw [recordAll_total, recordAll_total]
      have h1 := List.length_take n os
      have h2 := List.length_take (n + 1) os
      omega
    · rw [recordAll_failed, recordAll_failed]
      have hmono : (os.take n).countP (fun o => !o.succeeded)
          ≤ (os.take (n + 1)).countP (fun o => !o.succeeded) := by
        rw [List.take_succ, List.countP_append]
        omega
      omega
  · rw [recordAll_total]
    simp [emptySummary]

/-- The wait-interval configuration a locust user class may declare:
`between(lo, hi)` draws uniformly from [lo, hi]. -/
inductive WaitSpec where
  | between (lo hi : ℚ)
deriving DecidableEq

/-- The wait-related class attributes declared by `ServiceUser`: source
line 20 declares the attribute named `wait_times` (not `wait_time`) with
value `between(5, 10)`. -/
def ServiceUser_wait_attrs : List (String × WaitSpec) :=
  [("wait_times", WaitSpec.between 5 10)]

/-- Modelled from the spec: the load-generation collaborator (locust, not
under src/) reads the user class's `wait_time` attribute to obtain the
randomized pause between task iterations; a class that does not declare
`wait_time` gets no configured pause. -/
def effective_wait_attr (attrs : List (String × WaitSpec)) : Option WaitSpec :=
  attrs.lookup "wait_time"

/-- The pause drawn before the next iteration, for a uniform draw
`u ∈ [0, 1]`: with no configured wait the pause is 0; with `between(lo, hi)`
it is `lo + u * (hi - lo)`. -/
def wait_value (w : Option WaitSpec) (u : ℚ) : ℚ :=
  match w with
  | none => 0
  | some (WaitSpec.between lo hi) => lo + u * (hi - lo)

/-- C8, code evaluation: `ServiceUser` declares `wait_times`, which is not
the `wait_time` attribute the collaborator consults, so the effective wait
configuration is absent and every pause is 0, which does not lie in the
configured range [5, 10]. -/
theorem C8_wait_times_never_applied :
    effective_wait_attr ServiceUser_wait_attrs = none ∧
    (∀ u : ℚ, wait_value (effective_wait_attr ServiceUser_wait_attrs) u = 0) ∧
    ¬ (5 ≤ (0 : ℚ)) := by
  refine ⟨rfl, fun u => rfl, by norm_num⟩

/-- C9: `generate_report` is pure — its result is determined entirely by the
summary fields and the slo, with no hidden state, so two calls on equal
summaries and the same slo yield identical reports. -/
theorem C9_report_pure (s1 s2 : TotalStats) (slo : ℚ)
    (h1 : s1.num_requests = s2.num_requests)
    (h2 : s1.num_failures = s2.num_failures)
    (h3 : s1.total_response_time = s2.total_response_time) :
    generate_report s1 slo = generate_report s2 slo ∧
    generate_report s1 slo = generate_report s1 slo := by
  obtain ⟨a, b, c⟩ := s1
  obtain ⟨a', b', c'⟩ := s2
  cases h1
  cases h2
  cases h3
  exact ⟨rfl, rfl⟩

/-- Concrete instantiation of C9 at the summary {total 100, failed 1,
lat 5000} and slo 999/1000. -/
theorem C9_report_pure_witness :
    generate_report ⟨100, 1, 5000⟩ (999/1000) = generate_report ⟨100, 1, 5000⟩ (999/1000) :=
  (C9_report_pure ⟨100, 1, 5000⟩ ⟨100, 1, 5000⟩ (999/1000) rfl rfl rfl).1

/-- Division that fails (rather than defaulting) on a zero divisor, used to
make every division of `generate_report` explicit. -/
def qdiv (a b : ℚ) : Option ℚ := if b = 0 then none else some (a / b)

/-- `generate_report` with every division routed through `qdiv`: the
division by `total_requests` is guarded by the `total_requests == 0` branch
(source line 57), the division by the literal 100 cannot fail, the division
by `allowed_error_rate` is guarded by `allowed_error_rate > 0`
(source line 70), and the average-latency division is guarded by
`total_requests > 0` (source line 72). -/
def generate_report_checked (stats : TotalStats) (slo : ℚ) : Option Report :=
  if stats.num_requests = 0 then
    some { total_requests := 0, failures := 0, availability_percent := 0,
           average_latency_ms := 0,
           error_budget_consumed_percent := ErrorBudget.na "N/A (no data)" }
  else
    (qdiv (stats.num_failures : ℚ) (stats.num_requests : ℚ)).bind (fun fot =>
      let availability := (1 - fot) * 100
      (qdiv availability 100).bind (fun a100 =>
        let error_rate := 1 - a100
        let allowed_error_rate := 1 - slo
        (if 0 < allowed_error_rate ∧ 0 < error_rate then
            (qdiv error_rate allowed_error_rate).map (fun x => x * 100)
          else some 0).bind (fun ebc =>
          (if 0 < stats.num_requests then
              qdiv stats.total_response_time (stats.num_requests : ℚ)
            else some 0).bind (fun avg =>
            some { total_requests := stats.num_requests,
                   failures := stats.num_failures,
                   availability_percent := availability,
                   average_latency_ms := avg,
                   error_budget_consumed_percent := ErrorBudget.percent ebc }))))

/-- C10: `generate_report` is total — on every summary and every slo
(including slo ≥ 1 and slo ≤ 0) each division's divisor is nonzero on the
branch where it is evaluated, so the checked variant never fails and agrees
with `generate_report`. -/
theorem C10_generate_report_total (stats : TotalStats) (slo : ℚ) :
    generate_report_checked stats slo = some (generate_report stats slo) := by
  by_cases h : stats.num_requests = 0
  · simp [generate_report_checked, generate_report, h]
  · have hpos : 0 < stats.num_requests := Nat.pos_of_ne_zero h
    have hq : ((stats.num_requests : ℚ)) ≠ 0 := Nat.cast_ne_zero.mpr h
    rw [generate_report_pos stats slo h]
    simp only [generate_report_checked, if_neg h, qdiv, if_pos hpos, if_neg hq]
    norm_num
    by_cases hc : slo < 1 ∧
        0 < (stats.num_failures : ℚ) / (stats.num_requests : ℚ)
    · obtain ⟨hs, hf⟩ := hc
      have hne1 : (1 : ℚ) - slo ≠ 0 := sub_ne_zero_of_ne hs.ne'
      simp [hs, hf, hne1]
    · simp [hc]
